import Mathlib

/-!
Verification of the restaurant menu and identity backend (src/main1.py, src/users.py).

The two services are shallowly embedded: the SQLite `dishes` table becomes a list of
rows together with the AUTOINCREMENT sequence counter, each HTTP handler becomes a
pure function from the table (and the request data) to a response value and the new
table, and the SQLite behaviour actually exercised by the handlers (UNIQUE constraint
on the dish name, rowcount of UPDATE and DELETE, lastrowid of INSERT) is embedded
from the schema that `startup` creates.  Uncaught storage or runtime exceptions are
a distinguished `fault` constructor of the result types.
-/

/-- SQLite errors that the embedded statements can raise.  The only constraint the
handlers can trip is the UNIQUE column constraint, surfaced as sqlite3.IntegrityError. -/
inductive SqlError where
  | integrityError
deriving DecidableEq, Repr

/-- A row of the `dishes` table: id INTEGER PRIMARY KEY AUTOINCREMENT,
name TEXT NOT NULL UNIQUE, category_id INTEGER NOT NULL, availability BOOLEAN NOT NULL,
stock INTEGER DEFAULT 0 (nullable). -/
structure DishRow where
  id : Nat
  name : String
  category_id : Int
  availability : Bool
  stock : Option Int
deriving DecidableEq, Repr

/-- The `dishes` table: its rows plus the AUTOINCREMENT sequence
(the id that the next inserted row receives). -/
structure DishDB where
  rows : List DishRow
  nextId : Nat
deriving DecidableEq, Repr

/-- The pydantic `Dish` request model of main1.py: the client submits every field,
including an `id` (which the INSERT statement does not use). -/
structure Dish where
  id : Nat
  name : String
  category_id : Int
  availability : Bool
  stock : Option Int
deriving DecidableEq, Repr

/-- Does some row already carry this name?  The schema declares `name TEXT NOT NULL
UNIQUE`, so the constraint is on the name alone, not on name+category. -/
def nameExists (db : DishDB) (n : String) : Bool :=
  db.rows.any (fun r => r.name == n)

/-- INSERT INTO dishes (name, category_id, availability, stock) VALUES (?, ?, ?, ?):
fails with IntegrityError when the UNIQUE(name) constraint is violated, otherwise
appends the row with the next AUTOINCREMENT id and returns that id as lastrowid. -/
def sqlInsertDish (db : DishDB) (n : String) (c : Int) (a : Bool) (s : Option Int) :
    Except SqlError (DishDB × Nat) :=
  if nameExists db n then .error .integrityError
  else .ok ({ rows := db.rows ++ [⟨db.nextId, n, c, a, s⟩], nextId := db.nextId + 1 }, db.nextId)

/-- UPDATE dishes SET name = ?, category_id = ?, availability = ?, stock = ? WHERE id = ?:
returns the rowcount (number of matched rows); raises IntegrityError when the new name
collides with the name of a row not matched by the WHERE clause. -/
def sqlUpdateDish (db : DishDB) (did : Nat) (n : String) (c : Int) (a : Bool) (s : Option Int) :
    Except SqlError (DishDB × Nat) :=
  let matched := db.rows.countP (fun r => r.id == did)
  if matched == 0 then .ok (db, 0)
  else if db.rows.any (fun r => r.id != did && r.name == n) then .error .integrityError
  else .ok ({ db with rows := db.rows.map (fun r => if r.id == did then ⟨r.id, n, c, a, s⟩ else r) },
    matched)

/-- DELETE FROM dishes WHERE id = ?: removes the matched rows, returns the rowcount. -/
def sqlDeleteDish (db : DishDB) (did : Nat) : DishDB × Nat :=
  let deleted := db.rows.countP (fun r => r.id == did)
  ({ db with rows := db.rows.filter (fun r => r.id != did) }, deleted)

/-- Results of POST /dishes (add_dish). -/
inductive AddDishResult where
  | conflict (status : Nat) (detail : String)
  | created (status : Nat) (message : String) (dish : Dish)
  | fault (e : SqlError)
deriving DecidableEq, Repr

/-- add_dish (POST /dishes): reject with 400 when a row with the same name AND the
same category_id exists, otherwise insert.  The response content is
the dict with key id mapped to dish_id and then updated with dish.dict(); since
dish.dict() also carries an id key, the spread overwrites dish_id with the
client-submitted dish.id, so the store-assigned lastrowid never reaches the response. -/
def add_dish (db : DishDB) (dish : Dish) : AddDishResult × DishDB :=
  if db.rows.any (fun r => r.name == dish.name && r.category_id == dish.category_id) then
    (.conflict 400 "Dish with this name already exists in the category", db)
  else
    match sqlInsertDish db dish.name dish.category_id dish.availability dish.stock with
    | .error e => (.fault e, db)
    | .ok (db2, _dish_id) =>
      (.created 201 "Dish added successfully"
        ⟨dish.id, dish.name, dish.category_id, dish.availability, dish.stock⟩, db2)

/-- Results of PUT /dishes/{dish_id} (update_dish). -/
inductive UpdateDishResult where
  | notFound (status : Nat) (detail : String)
  | ok (status : Nat) (message : String) (dish : Dish)
  | fault (e : SqlError)
deriving DecidableEq, Repr

/-- update_dish (PUT /dishes/{dish_id}): run the UPDATE (no duplicate-name check in
application code, so an IntegrityError from the storage constraint propagates
uncaught), then 404 when the rowcount is 0, else 200 with the submitted dish dict. -/
def update_dish (db : DishDB) (dish_id : Nat) (updated_dish : Dish) :
    UpdateDishResult × DishDB :=
  match sqlUpdateDish db dish_id updated_dish.name updated_dish.category_id
      updated_dish.availability updated_dish.stock with
  | .error e => (.fault e, db)
  | .ok (db2, rowcount) =>
    if rowcount == 0 then (.notFound 404 "Dish not found", db2)
    else (.ok 200 "Dish updated successfully" updated_dish, db2)

/-- Results of the message-only endpoints (DELETE /dishes/{id}, the stock patches). -/
inductive MsgResult where
  | notFound (status : Nat) (detail : String)
  | ok (status : Nat) (message : String)
deriving DecidableEq, Repr

/-- delete_dish (DELETE /dishes/{dish_id}): DELETE, then 404 when rowcount is 0,
else 200. -/
def delete_dish (db : DishDB) (dish_id : Nat) : MsgResult × DishDB :=
  let res := sqlDeleteDish db dish_id
  if res.2 == 0 then (.notFound 404 "Dish not found", res.1)
  else (.ok 200 "Dish deleted successfully", res.1)

/-- Result of GET /dishes/{dish_id}. -/
inductive GetDishResult where
  | notFound (status : Nat) (detail : String)
  | ok (dish : DishRow)
deriving DecidableEq, Repr

/-- get_dish_by_id (GET /dishes/{dish_id}): SELECT * FROM dishes WHERE id = ?,
404 when no row matches. -/
def get_dish_by_id (db : DishDB) (dish_id : Nat) : GetDishResult :=
  match db.rows.find? (fun r => r.id == dish_id) with
  | none => .notFound 404 ("Dish with ID " ++ toString dish_id ++ " not found")
  | some r => .ok r

/-- mark_dish_out_of_stock (PATCH /menu/dishes/{dish_id}/out-of-stock):
UPDATE dishes SET availability = 0 WHERE id = ?, then 404 when rowcount is 0. -/
def mark_dish_out_of_stock (db : DishDB) (dish_id : Nat) : MsgResult × DishDB :=
  let matched := db.rows.countP (fun r => r.id == dish_id)
  let db2 : DishDB :=
    { db with rows := db.rows.map (fun r =>
        if r.id == dish_id then { r with availability := false } else r) }
  if matched == 0 then (.notFound 404 "Dish not found", db2)
  else (.ok 200 ("Dish with ID " ++ toString dish_id ++ " marked as out of stock"), db2)

/-- get_inventory_report (GET /admin/reports/inventory): the two correlated COUNT
subqueries, availability = 1 and availability = 0, returned as (in_stock, out_of_stock). -/
def get_inventory_report (db : DishDB) : Nat × Nat :=
  (db.rows.countP (fun r => r.availability), db.rows.countP (fun r => !r.availability))

/-- What a token-gated route observes: either the 401 raised by OAuth2PasswordBearer
before the handler body runs, or the accepted result of the handler. -/
inductive GateResult (ρ : Type) where
  | unauthorized (status : Nat)
  | accepted (r : ρ)
deriving DecidableEq, Repr

/-- The oauth_scheme dependency (OAuth2PasswordBearer) applied to a route handler:
when no token string is present in the authorization header the request is rejected
with 401 Unauthorized and the handler never runs; when any token string is present
the handler runs, with no inspection of the token whatsoever. -/
def oauth_scheme_gate {ρ : Type} (auth : Option String) (op : DishDB → ρ × DishDB)
    (db : DishDB) : GateResult ρ × DishDB :=
  match auth with
  | none => (.unauthorized 401, db)
  | some _token => ((op db).1 |> .accepted, (op db).2)

/-- The dishes seeded by the startup handler of main1.py (INSERT OR IGNORE of rows
with explicit ids 1 and 2); the AUTOINCREMENT sequence then stands at 3. -/
def startupDB : DishDB :=
  { rows := [⟨1, "Onion Pakoda", 1, true, some 10⟩, ⟨2, "Mixed Veg Pakoda", 1, true, some 15⟩],
    nextId := 3 }

/-- A row of the `users` table of users.py: id INTEGER PRIMARY KEY AUTOINCREMENT,
username TEXT UNIQUE NOT NULL, password TEXT NOT NULL (the stored hash). -/
structure UserRow where
  id : Nat
  username : String
  password : String
deriving DecidableEq, Repr

/-- Model of werkzeug generate_password_hash: an irreversible salted hash of the
password, embedded as a deterministic injective tagging function. -/
def generate_password_hash (password : String) : String :=
  "pbkdf2:sha256$" ++ password

/-- Model of werkzeug check_password_hash: the stored hash matches exactly the
hashes of the submitted password. -/
def check_password_hash (stored submitted : String) : Bool :=
  stored == generate_password_hash submitted

/-- The payload of the signed credential: the username and the expiration timestamp
(seconds). -/
structure JwtPayload where
  username : String
  exp : Int
deriving DecidableEq, Repr

/-- A credential string as the jwt library sees it: either a well-formed token signed
with some key, or a malformed string that decodes as no token at all. -/
inductive JwtToken where
  | signed (payload : JwtPayload) (key : String)
  | malformed (raw : String)
deriving DecidableEq, Repr

/-- The exceptions jwt.decode can raise: ExpiredSignatureError for a current key but
a past exp claim, and the DecodeError family (which invalid signatures also belong
to) for everything else. -/
inductive JwtError where
  | expiredSignature
  | decodeError
deriving DecidableEq, Repr

/-- The signing secret: app.config JWT_SECRET_KEY of users.py. -/
def JWT_SECRET_KEY : String := "your_jwt_secret_key"

/-- jwt.encode(payload, key, HS256). -/
def jwt_encode (payload : JwtPayload) (key : String) : JwtToken :=
  .signed payload key

/-- jwt.decode(token, key, HS256) evaluated at time `now`: a malformed token or a
signature under a different key raises DecodeError; a token whose exp claim is not in
the future raises ExpiredSignatureError; otherwise the payload is returned. -/
def jwt_decode (tok : JwtToken) (key : String) (now : Int) : Except JwtError JwtPayload :=
  match tok with
  | .malformed _ => .error .decodeError
  | .signed p k =>
    if k == key then
      if p.exp ≤ now then .error .expiredSignature else .ok p
    else .error .decodeError

/-- create_jwt_token of users.py: expiration_time is utcnow() + 1 hour (3600 seconds),
the payload carries the username and exp, signed with JWT_SECRET_KEY. -/
def create_jwt_token (now : Int) (username : String) : JwtToken :=
  let expiration_time := now + 3600
  jwt_encode { username := username, exp := expiration_time } JWT_SECRET_KEY

/-- Outcome of POST /login: on success the rendered page carries the token and the
response sets it as the jwt_token HTTP-only cookie; on failure only a message. -/
inductive LoginResult where
  | success (message : String) (token : JwtToken) (cookie_jwt_token : JwtToken)
  | failure (message : String)
deriving DecidableEq, Repr

/-- post_login (POST /login): fetch the stored hash for the username; when the user
exists and check_password_hash accepts, mint the credential and set the cookie,
otherwise answer the generic invalid-credentials message. -/
def post_login (users : List UserRow) (username password : String) (now : Int) :
    LoginResult :=
  match users.find? (fun u => u.username == username) with
  | some u =>
    if check_password_hash u.password password then
      let token := create_jwt_token now username
      .success "Login successful. Welcome!" token token
    else .failure "Invalid username or password."
  | none => .failure "Invalid username or password."

/-- Outcome of the change-password routes: a rendered template page (message and the
action field passed to the template), or an uncaught exception propagating out of the
handler (the jwt DecodeError family is not caught by the code). -/
inductive PageResult where
  | page (message : Option String) (action : String)
  | fault
deriving DecidableEq, Repr

/-- get_change_password (GET /change-password): the credential arrives as the
jwt_token cookie (none when absent); only ExpiredSignatureError is caught, so a
malformed or wrongly-signed token makes jwt.decode raise uncaught. -/
def get_change_password (token : Option JwtToken) (now : Int) : PageResult :=
  match token with
  | none => .page (some "Token is missing") "login"
  | some t =>
    match jwt_decode t JWT_SECRET_KEY now with
    | .error .expiredSignature => .page (some "Expired token.") "login"
    | .error .decodeError => .fault
    | .ok _payload => .page none "change-password"

/-- post_change_password (POST /change-password): the credential arrives as a form
field (none models the empty string, caught by the `if not token` test); only
ExpiredSignatureError is caught around jwt.decode; with a decoded username the stored
hash is fetched and the password is rehashed and overwritten when the current
password checks out, else the incorrect-password message is rendered. -/
def post_change_password (users : List UserRow) (current_password new_password : String)
    (token : Option JwtToken) (now : Int) : PageResult × List UserRow :=
  match token with
  | none => (.page (some "Token is missing") "login", users)
  | some t =>
    match jwt_decode t JWT_SECRET_KEY now with
    | .error .expiredSignature => (.page (some "Expired token.") "login", users)
    | .error .decodeError => (.fault, users)
    | .ok payload =>
      match users.find? (fun u => u.username == payload.username) with
      | some u =>
        if check_password_hash u.password current_password then
          (.page (some "Password changed successfully.") "change-password",
            users.map (fun v =>
              if v.username == payload.username then
                { v with password := generate_password_hash new_password } else v))
        else (.page (some "Incorrect current password.") "change-password", users)
      | none => (.page (some "Incorrect current password.") "change-password", users)

/-! ### Helper lemmas -/

theorem markAvailRow_id (did : Nat) (r : DishRow) :
    ((if r.id == did then { r with availability := false } else r) : DishRow).id = r.id := by
  split <;> rfl

theorem countP_bool_split (l : List DishRow) :
    l.countP (fun r => r.availability) + l.countP (fun r => !r.availability) = l.length := by
  induction l with
  | nil => rfl
  | cons r t ih =>
    cases h : r.availability <;>
      simp [List.countP_cons, h] <;> omega

/-! ### Claim theorems -/

/-- C4: for every state of the dishes table, the inventory report counts satisfy
in_stock + out_of_stock = total number of rows in the dishes table. -/
theorem inventory_report_total (db : DishDB) :
    (get_inventory_report db).1 + (get_inventory_report db).2 = db.rows.length := by
  simpa [get_inventory_report] using countP_bool_split db.rows

/-- C3: an add-dish request whose name+category_id pair already exists in the dishes
table fails with Conflict (HTTP 400) and leaves the table, in particular its row
count, unchanged. -/
theorem add_dish_duplicate_conflict (db : DishDB) (dish : Dish) (r : DishRow)
    (hr : r ∈ db.rows) (hn : r.name = dish.name) (hc : r.category_id = dish.category_id) :
    add_dish db dish =
      (.conflict 400 "Dish with this name already exists in the category", db) ∧
    (add_dish db dish).2.rows.length = db.rows.length := by
  have hany : db.rows.any
      (fun x => x.name == dish.name && x.category_id == dish.category_id) = true := by
    rw [List.any_eq_true]
    exact ⟨r, hr, by simp [hn, hc]⟩
  refine ⟨by simp [add_dish, hany], by simp [add_dish, hany]⟩

/-- C3 witness: adding a second "Onion Pakoda" in category 1 against the startup
table is rejected with Conflict and the table is unchanged. -/
theorem add_dish_duplicate_conflict_witness :
    add_dish startupDB ⟨7, "Onion Pakoda", 1, false, none⟩ =
      (.conflict 400 "Dish with this name already exists in the category", startupDB) ∧
    (add_dish startupDB ⟨7, "Onion Pakoda", 1, false, none⟩).2.rows.length =
      startupDB.rows.length :=
  add_dish_duplicate_conflict startupDB ⟨7, "Onion Pakoda", 1, false, none⟩
    ⟨1, "Onion Pakoda", 1, true, some 10⟩ (by decide) rfl rfl

/-- C8: a token-gated menu operation answers 401 Unauthorized with the store
untouched when no token string is present in the authorization header, and runs the
operation unconditionally (no check of any kind on the token) when any token string
is present. -/
theorem oauth_gate_spec {ρ : Type} (auth : Option String) (op : DishDB → ρ × DishDB)
    (db : DishDB) :
    (auth = none → oauth_scheme_gate auth op db = (.unauthorized 401, db)) ∧
    (∀ t : String, auth = some t →
      oauth_scheme_gate auth op db = (.accepted (op db).1, (op db).2)) := by
  refine ⟨fun h => by subst h; rfl, fun t h => by subst h; rfl⟩

/-- C8 witness: the gate on the delete operation rejects a missing header with 401
leaving the startup table unchanged, and accepts the arbitrary token string. -/
theorem oauth_gate_spec_witness :
    oauth_scheme_gate none (fun db => delete_dish db 1) startupDB =
      (.unauthorized 401, startupDB) ∧
    oauth_scheme_gate (some "any-token") (fun db => delete_dish db 1) startupDB =
      (.accepted (delete_dish startupDB 1).1, (delete_dish startupDB 1).2) :=
  ⟨(oauth_gate_spec none (fun db => delete_dish db 1) startupDB).1 rfl,
   (oauth_gate_spec (some "any-token") (fun db => delete_dish db 1) startupDB).2
     "any-token" rfl⟩

/-- C9: a login with a username present in the users table and the correct password
succeeds and mints a credential which, decoded with the signing secret, yields the
submitted username and an expiration exactly 1 hour (3600 seconds) after issuance. -/
theorem login_issues_fresh_credential (users : List UserRow) (username password : String)
    (now : Int) (u : UserRow)
    (hfind : users.find? (fun v => v.username == username) = some u)
    (hpw : check_password_hash u.password password = true) :
    post_login users username password now =
      .success "Login successful. Welcome!" (create_jwt_token now username)
        (create_jwt_token now username) ∧
    jwt_decode (create_jwt_token now username) JWT_SECRET_KEY now =
      .ok { username := username, exp := now + 3600 } := by
  have hx : ¬ (now + 3600 ≤ now) := by omega
  exact ⟨by simp [post_login, hfind, hpw],
    by simp [create_jwt_token, jwt_encode, jwt_decode, hx]⟩

/-- C9 witness: alice logs in with her correct password at time 0 and the minted
credential decodes to alice with expiration 3600. -/
theorem login_issues_fresh_credential_witness :
    post_login [⟨1, "alice", generate_password_hash "hunter2"⟩] "alice" "hunter2" 0 =
      .success "Login successful. Welcome!" (create_jwt_token 0 "alice")
        (create_jwt_token 0 "alice") ∧
    jwt_decode (create_jwt_token 0 "alice") JWT_SECRET_KEY 0 =
      .ok { username := "alice", exp := 0 + 3600 } :=
  login_issues_fresh_credential [⟨1, "alice", generate_password_hash "hunter2"⟩]
    "alice" "hunter2" 0 ⟨1, "alice", generate_password_hash "hunter2"⟩ (by rfl) (by decide)

/-- C2: on the startup table, a successful add of a dish submitted with id 99 answers
201 Created, but the dish record in the response carries the client-submitted id 99
while the row actually inserted received the store-assigned id 3: the response id is
not the store-assigned row id. -/
theorem add_dish_response_id_is_submitted :
    add_dish startupDB ⟨99, "Dal Tadka", 5, true, some 20⟩ =
      (.created 201 "Dish added successfully" ⟨99, "Dal Tadka", 5, true, some 20⟩,
       { rows := startupDB.rows ++ [⟨3, "Dal Tadka", 5, true, some 20⟩], nextId := 4 }) ∧
    (99 : Nat) ≠ 3 :=
  ⟨by decide, by decide⟩

theorem find?_append_of_all_false {α : Type} (p : α → Bool) (l₁ l₂ : List α)
    (h : ∀ x ∈ l₁, p x = false) : (l₁ ++ l₂).find? p = l₂.find? p := by
  rw [List.find?_append]
  have hn : l₁.find? p = none := by
    rw [List.find?_eq_none]
    intro x hx
    simp [h x hx]
  rw [hn, Option.none_or]

/-- C7: an update or delete request with a dish id not present in the dishes table
fails with NotFound (HTTP 404) and the table is unchanged. -/
theorem update_delete_absent_not_found (db : DishDB) (did : Nat) (d : Dish)
    (h : ∀ r ∈ db.rows, r.id ≠ did) :
    update_dish db did d = (.notFound 404 "Dish not found", db) ∧
    delete_dish db did = (.notFound 404 "Dish not found", db) := by
  have hcount : db.rows.countP (fun r => r.id == did) = 0 := by
    rw [List.countP_eq_zero]
    intro r hr
    simpa using h r hr
  have hfilter : db.rows.filter (fun r => r.id != did) = db.rows := by
    rw [List.filter_eq_self]
    intro r hr
    simpa using h r hr
  refine ⟨by simp [update_dish, sqlUpdateDish, hcount],
    by simp [delete_dish, sqlDeleteDish, hcount, hfilter]⟩

/-- C7 witness: id 5 is absent from the startup table; update and delete both
answer 404 and leave the table as it was. -/
theorem update_delete_absent_not_found_witness :
    update_dish startupDB 5 ⟨5, "Paneer Butter Masala", 2, true, some 4⟩ =
      (.notFound 404 "Dish not found", startupDB) ∧
    delete_dish startupDB 5 = (.notFound 404 "Dish not found", startupDB) :=
  update_delete_absent_not_found startupDB 5 ⟨5, "Paneer Butter Masala", 2, true, some 4⟩
    (by decide)

/-- C10: updating an existing dish to the name of a different existing row trips the
name-only storage UNIQUE constraint: the operation ends in a propagated
IntegrityError fault (not the Conflict answer of the add operation) with the table
unchanged, since update_dish performs no duplicate-name check in application code. -/
theorem update_dish_duplicate_name_fault (db : DishDB) (did : Nat) (d : Dish)
    (r1 : DishRow) (h1 : r1 ∈ db.rows) (hid1 : r1.id = did)
    (r2 : DishRow) (h2 : r2 ∈ db.rows) (hid2 : r2.id ≠ did) (hn2 : r2.name = d.name) :
    update_dish db did d = (.fault .integrityError, db) := by
  have hpos : 0 < db.rows.countP (fun r => r.id == did) := by
    rw [List.countP_pos_iff]
    exact ⟨r1, h1, by simp [hid1]⟩
  have hmatched : (db.rows.countP (fun r => r.id == did) == 0) = false := by
    rw [beq_eq_false_iff_ne]
    exact Nat.pos_iff_ne_zero.mp hpos
  have hdup : db.rows.any (fun r => r.id != did && r.name == d.name) = true := by
    rw [List.any_eq_true]
    exact ⟨r2, h2, by simp [hid2, hn2]⟩
  simp [update_dish, sqlUpdateDish, hmatched, hdup]

/-- C10 witness: renaming dish 1 of the startup table to "Mixed Veg Pakoda" (the
name of dish 2) ends in the propagated IntegrityError with the table unchanged. -/
theorem update_dish_duplicate_name_fault_witness :
    update_dish startupDB 1 ⟨1, "Mixed Veg Pakoda", 1, true, some 10⟩ =
      (.fault .integrityError, startupDB) :=
  update_dish_duplicate_name_fault startupDB 1 ⟨1, "Mixed Veg Pakoda", 1, true, some 10⟩
    ⟨1, "Onion Pakoda", 1, true, some 10⟩ (by decide) rfl
    ⟨2, "Mixed Veg Pakoda", 1, true, some 15⟩ (by decide) (by decide) rfl

/-- C1 counterexample: on the startup table no row carries the name+category pair
("Onion Pakoda", 2), yet adding a dish with that pair does not succeed: the
name-only UNIQUE constraint of the dishes table raises a propagated IntegrityError. -/
theorem add_dish_pair_absent_faults :
    startupDB.rows.all
      (fun r => !(r.name == "Onion Pakoda" && r.category_id == 2)) = true ∧
    add_dish startupDB ⟨3, "Onion Pakoda", 2, true, some 5⟩ =
      (.fault .integrityError, startupDB) :=
  ⟨by decide, by decide⟩

/-- C1 (amended): when the submitted name is not present anywhere in the dishes
table (which in particular makes the name+category_id pair absent) and the table
satisfies the AUTOINCREMENT invariant (every row id below the sequence value), the
add operation succeeds with 201 Created and a get-by-id at the store-assigned row id
returns a dish with exactly the submitted name, category_id, availability, and
stock. -/
theorem add_then_get_by_id (db : DishDB) (dish : Dish)
    (hname : ∀ r ∈ db.rows, r.name ≠ dish.name)
    (hid : ∀ r ∈ db.rows, r.id < db.nextId) :
    add_dish db dish =
      (.created 201 "Dish added successfully"
        ⟨dish.id, dish.name, dish.category_id, dish.availability, dish.stock⟩,
       { rows := db.rows ++
           [⟨db.nextId, dish.name, dish.category_id, dish.availability, dish.stock⟩],
         nextId := db.nextId + 1 }) ∧
    get_dish_by_id (add_dish db dish).2 db.nextId =
      .ok ⟨db.nextId, dish.name, dish.category_id, dish.availability, dish.stock⟩ := by
  have hpair : db.rows.any
      (fun r => r.name == dish.name && r.category_id == dish.category_id) = false := by
    rw [List.any_eq_false]
    intro r hr
    simp [hname r hr]
  have hne : nameExists db dish.name = false := by
    rw [nameExists, List.any_eq_false]
    intro r hr
    simp [hname r hr]
  have hadd : add_dish db dish =
      (.created 201 "Dish added successfully"
        ⟨dish.id, dish.name, dish.category_id, dish.availability, dish.stock⟩,
       { rows := db.rows ++
           [⟨db.nextId, dish.name, dish.category_id, dish.availability, dish.stock⟩],
         nextId := db.nextId + 1 }) := by
    simp [add_dish, hpair, sqlInsertDish, hne]
  have hfind : (db.rows ++
      [(⟨db.nextId, dish.name, dish.category_id, dish.availability, dish.stock⟩ : DishRow)]).find?
        (fun r => r.id == db.nextId) =
      some ⟨db.nextId, dish.name, dish.category_id, dish.availability, dish.stock⟩ := by
    rw [find?_append_of_all_false]
    · simp [List.find?]
    · intro r hr
      simp [Nat.ne_of_lt (hid r hr)]
  refine ⟨hadd, ?_⟩
  rw [hadd]
  simp [get_dish_by_id, hfind]

/-- C1 witness: adding "Paneer Tikka" (name absent from the startup table) succeeds
with 201 and the row is retrievable under the assigned id 3 with the submitted
fields. -/
theorem add_then_get_by_id_witness :
    add_dish startupDB ⟨99, "Paneer Tikka", 1, true, some 8⟩ =
      (.created 201 "Dish added successfully" ⟨99, "Paneer Tikka", 1, true, some 8⟩,
       { rows := startupDB.rows ++ [⟨startupDB.nextId, "Paneer Tikka", 1, true, some 8⟩],
         nextId := startupDB.nextId + 1 }) ∧
    get_dish_by_id (add_dish startupDB ⟨99, "Paneer Tikka", 1, true, some 8⟩).2
        startupDB.nextId =
      .ok ⟨startupDB.nextId, "Paneer Tikka", 1, true, some 8⟩ :=
  add_then_get_by_id startupDB ⟨99, "Paneer Tikka", 1, true, some 8⟩ (by decide) (by decide)


theorem mark_map_countP (did : Nat) (rs : List DishRow) :
    (rs.map (fun r => if r.id == did then { r with availability := false } else r)).countP
      (fun r => r.id == did) = rs.countP (fun r => r.id == did) := by
  induction rs with
  | nil => rfl
  | cons a t ih =>
    rw [List.map_cons, List.countP_cons, List.countP_cons, ih]
    congr 1
    by_cases ha : a.id = did
    · simp [ha]
    · simp [ha]

theorem mark_map_idem (did : Nat) (rs : List DishRow) :
    (rs.map (fun r => if r.id == did then { r with availability := false } else r)).map
      (fun r => if r.id == did then { r with availability := false } else r) =
    rs.map (fun r => if r.id == did then { r with availability := false } else r) := by
  induction rs with
  | nil => rfl
  | cons a t ih =>
    simp only [List.map_cons, List.cons.injEq]
    refine ⟨?_, by simpa using ih⟩
    by_cases ha : a.id = did
    · simp [ha]
    · simp [ha]

/-- C6: marking an existing dish out of stock answers 200 and rewrites the table by
setting availability to false exactly on the rows with that id, leaving the name,
category_id, stock of that dish, every other row, and the sequence counter
unchanged; applying the operation twice yields the same table state and the same
success outcome as applying it once. -/
theorem mark_out_of_stock_frame_idempotent (db : DishDB) (did : Nat)
    (h : db.rows.any (fun r => r.id == did) = true) :
    mark_dish_out_of_stock db did =
      (.ok 200 ("Dish with ID " ++ toString did ++ " marked as out of stock"),
       { db with rows := db.rows.map (fun r =>
           if r.id == did then { r with availability := false } else r) }) ∧
    mark_dish_out_of_stock (mark_dish_out_of_stock db did).2 did =
      mark_dish_out_of_stock db did := by
  obtain ⟨rs, k⟩ := db
  have hpos : 0 < rs.countP (fun r => r.id == did) := by
    rw [List.countP_pos_iff]
    simpa using h
  have hc1 : (rs.countP (fun r => r.id == did) == 0) = false := by
    rw [beq_eq_false_iff_ne]
    exact Nat.pos_iff_ne_zero.mp hpos
  have hc2 : ((rs.map (fun r =>
      if r.id == did then { r with availability := false } else r)).countP
        (fun r => r.id == did) == 0) = false := by
    rw [mark_map_countP]
    exact hc1
  have heq1 : mark_dish_out_of_stock ⟨rs, k⟩ did =
      (.ok 200 ("Dish with ID " ++ toString did ++ " marked as out of stock"),
       ⟨rs.map (fun r => if r.id == did then { r with availability := false } else r), k⟩) := by
    simp [mark_dish_out_of_stock, hc1]
  have heq2 : mark_dish_out_of_stock
      ⟨rs.map (fun r => if r.id == did then { r with availability := false } else r), k⟩ did =
      (.ok 200 ("Dish with ID " ++ toString did ++ " marked as out of stock"),
       ⟨rs.map (fun r => if r.id == did then { r with availability := false } else r), k⟩) := by
    simp only [mark_dish_out_of_stock]
    rw [hc2, if_neg (by decide : ¬ (false = true)), mark_map_idem]
  exact ⟨heq1, by simp only [heq1, heq2]⟩

/-- C6 witness: marking dish 1 of the startup table out of stock answers 200, flips
only its availability, and a second application changes nothing further. -/
theorem mark_out_of_stock_frame_idempotent_witness :
    mark_dish_out_of_stock startupDB 1 =
      (.ok 200 ("Dish with ID " ++ toString 1 ++ " marked as out of stock"),
       { startupDB with rows := startupDB.rows.map (fun r =>
           if r.id == 1 then { r with availability := false } else r) }) ∧
    mark_dish_out_of_stock (mark_dish_out_of_stock startupDB 1).2 1 =
      mark_dish_out_of_stock startupDB 1 :=
  mark_out_of_stock_frame_idempotent startupDB 1 (by decide)

/-- C5 counterexample: a malformed credential presented to the change-password POST
route does not produce a login-required message page: the uncaught decode error
escapes the handler as a hard propagated fault. -/
theorem change_password_malformed_is_hard_error :
    post_change_password [] "current" "new" (some (.malformed "not-a-jwt")) 0 =
      (.fault, []) :=
  rfl

/-- C5 (amended): the change-password flow permits the password change only for a
valid-and-current credential; a missing credential and an expired credential (in
particular any credential minted more than 1 hour before now, regardless of password
correctness) yield a login-required message page; but a malformed or wrongly-signed
credential makes the decode raise an uncaught error (a propagated fault on both the
GET and the POST route), not a message page. -/
theorem change_password_credential_spec (users : List UserRow)
    (current_password new_password : String) (now : Int) :
    post_change_password users current_password new_password none now =
      (.page (some "Token is missing") "login", users) ∧
    (∀ p : JwtPayload, p.exp ≤ now →
      post_change_password users current_password new_password
        (some (.signed p JWT_SECRET_KEY)) now =
        (.page (some "Expired token.") "login", users)) ∧
    (∀ (t : Int) (un : String), t + 3600 < now →
      post_change_password users current_password new_password
        (some (create_jwt_token t un)) now =
        (.page (some "Expired token.") "login", users)) ∧
    (∀ s : String, post_change_password users current_password new_password
        (some (.malformed s)) now = (.fault, users)) ∧
    (∀ (p : JwtPayload) (k : String), k ≠ JWT_SECRET_KEY →
      post_change_password users current_password new_password
        (some (.signed p k)) now = (.fault, users)) ∧
    (∀ s : String, get_change_password (some (.malformed s)) now = .fault) ∧
    (∀ (p : JwtPayload) (u : UserRow), now < p.exp →
      users.find? (fun v => v.username == p.username) = some u →
      check_password_hash u.password current_password = true →
      post_change_password users current_password new_password
        (some (.signed p JWT_SECRET_KEY)) now =
        (.page (some "Password changed successfully.") "change-password",
         users.map (fun v => if v.username == p.username then
           { v with password := generate_password_hash new_password } else v))) := by
  refine ⟨rfl, ?_, ?_, fun s => rfl, ?_, fun s => rfl, ?_⟩
  · intro p hle
    simp [post_change_password, jwt_decode, hle]
  · intro t un hlt
    have hle : t + 3600 ≤ now := by omega
    simp [post_change_password, create_jwt_token, jwt_encode, jwt_decode, hle]
  · intro p k hk
    simp [post_change_password, jwt_decode, hk]
  · intro p u hnow hfind hpw
    have hgt : ¬ (p.exp ≤ now) := by omega
    simp [post_change_password, jwt_decode, hgt, hfind, hpw]

/-- C5 witness: an empty users table and a credential for user u that expired 5
seconds before now is rejected with the expired-token login page, whatever the
submitted passwords. -/
theorem change_password_credential_spec_witness :
    post_change_password [] "whatever" "newpw"
      (some (.signed { username := "u", exp := -5 } JWT_SECRET_KEY)) 0 =
      (.page (some "Expired token.") "login", []) :=
  (change_password_credential_spec [] "whatever" "newpw" 0).2.1
    { username := "u", exp := -5 } (by decide)
